import Mathlib

/-!
Shallow embedding of the tachometer adaptive-benchmarking tool.

The embedding covers:
* the horizon parser (spec section 4.1),
* the configuration parsing and validation pipeline (`src/config.ts`),
* the terminal result-table formatting dimensions (`format.ts`),
* the descriptive-statistics and pairwise-comparison computations (spec
  sections 4.2 and 4.3),
* the auto-sample scheduler state machine (spec section 4.5).

JavaScript floating-point numbers are modelled as `ℚ` where the code only
compares, adds and divides concrete values (parsing, formatting, scheduling)
and as `ℝ` where square roots appear (the statistics themselves).
-/

namespace Tachometer

/-! ## Horizon parser

Modelled from the spec: the horizon parser (`parseHorizons`, referenced by
`src/config.ts` via `./cli`) is not part of the excerpted sources.  Spec 4.1:
tokens match `^[+-]?(\d*\.)?\d+(ms|%)$`; the unit is stripped to obtain a
signed magnitude; `%` tokens are divided by 100 and routed to the relative
set, `ms` tokens to the absolute set; a token with an explicit sign, or with
magnitude exactly zero, inserts only that signed value, while a bare nonzero
magnitude inserts both the positive and the negative magnitude; the output is
two ascending-sorted, duplicate-free numeric arrays. -/

inductive HorizonUnit where
  | ms
  | pct
deriving DecidableEq

/-- One successfully parsed horizon token: whether the token carried an
explicit `+`/`-` sign, the signed value (with `%` already divided by 100),
and its unit. -/
structure ParsedHorizon where
  explicitSign : Bool
  value : ℚ
  unit : HorizonUnit
deriving DecidableEq

/-- The output of the horizon parser: two sorted duplicate-free arrays. -/
structure Horizons where
  absolute : List ℚ
  relative : List ℚ
deriving DecidableEq

/-- Digits-only run `\d+` to a natural number; fails on empty input or any
non-digit character. -/
def parseDigits (cs : List Char) : Option ℕ :=
  if cs.isEmpty then none
  else if cs.all Char.isDigit then
    some (cs.foldl (fun a c => 10 * a + (c.toNat - 48)) 0)
  else none

/-- Magnitude text matching `(\d*\.)?\d+`: either a digit run, or an
optionally-empty digit run, a dot, and a nonempty digit run. -/
def parseDecimalMagnitude (cs : List Char) : Option ℚ :=
  let intPart := cs.takeWhile (fun c => c ≠ '.')
  match cs.dropWhile (fun c => c ≠ '.') with
  | [] => (parseDigits cs).map (fun n => (n : ℚ))
  | '.' :: frac =>
    if intPart.all Char.isDigit then
      (parseDigits frac).map (fun f =>
        (intPart.foldl (fun a c => 10 * a + (c.toNat - 48)) 0 : ℚ)
          + (f : ℚ) / (10 : ℚ) ^ frac.length)
    else none
  | _ => none

/-- Parse one horizon token per the spec regex `^[+-]?(\d*\.)?\d+(ms|%)$`. -/
def parseHorizonToken (s : String) : Except String ParsedHorizon :=
  let cs := s.data
  let signAndRest : Option Bool × List Char :=
    match cs with
    | '+' :: r => (some true, r)
    | '-' :: r => (some false, r)
    | _ => (none, cs)
  let sign := signAndRest.1
  let rest := signAndRest.2
  let unitAndBody : Option (HorizonUnit × List Char) :=
    match rest.reverse with
    | 's' :: 'm' :: b => some (HorizonUnit.ms, b.reverse)
    | '%' :: b => some (HorizonUnit.pct, b.reverse)
    | _ => none
  match unitAndBody with
  | none => Except.error ("Invalid horizon " ++ s)
  | some (u, body) =>
    match parseDecimalMagnitude body with
    | none => Except.error ("Invalid horizon " ++ s)
    | some m =>
      let scaled : ℚ := match u with
        | HorizonUnit.ms => m
        | HorizonUnit.pct => m / 100
      let v : ℚ := match sign with
        | some false => -scaled
        | _ => scaled
      Except.ok ⟨sign.isSome, v, u⟩

/-- Insert a value into an ascending duplicate-free list, keeping it
ascending and duplicate-free (the model of the JS `Set` plus final
ascending sort). -/
def insortNew (q : ℚ) : List ℚ → List ℚ
  | [] => [q]
  | x :: xs =>
    if q < x then q :: x :: xs
    else if q = x then x :: xs
    else x :: insortNew q xs

/-- The values inserted for one parsed token: only the signed value when the
token had an explicit sign or the magnitude is exactly zero, otherwise both
the positive and the negative magnitude. -/
def horizonInsertValues (p : ParsedHorizon) : List ℚ :=
  if p.explicitSign || decide (p.value = 0) then [p.value]
  else [p.value, -p.value]

/-- Route one token into the absolute (ms) or relative (%) set. -/
def addHorizon (h : Horizons) (p : ParsedHorizon) : Horizons :=
  match p.unit with
  | HorizonUnit.ms =>
    { h with absolute := (horizonInsertValues p).foldl (fun l q => insortNew q l) h.absolute }
  | HorizonUnit.pct =>
    { h with relative := (horizonInsertValues p).foldl (fun l q => insortNew q l) h.relative }

def parseHorizonsAux : List String → Horizons → Except String Horizons
  | [], acc => Except.ok acc
  | s :: rest, acc =>
    match parseHorizonToken s with
    | Except.error e => Except.error e
    | Except.ok p => parseHorizonsAux rest (addHorizon acc p)

/-- The horizon parser: turns user-supplied threshold strings into the two
sorted threshold sets, failing on the first malformed token. -/
def parseHorizons (strs : List String) : Except String Horizons :=
  parseHorizonsAux strs ⟨[], []⟩

/-! ## Configuration (`src/config.ts`) -/

/-- The kinds of intervals we can measure (`src/types.ts`). -/
inductive Measurement where
  | callback
  | fcp
deriving DecidableEq

/-- The descriptor of a package version (`src/types.ts`): a label plus NPM
dependency overrides (a map from package name to version specifier). -/
structure PackageVersion where
  label : String
  dependencyOverrides : List (String × String)
deriving DecidableEq

/-- `packageVersions` entry of a benchmark in the JSON config file. -/
structure ConfigFilePackageVersion where
  label : String
  dependencies : List (String × String)
deriving DecidableEq

/-- The URL of a benchmark after parsing: either a fully qualified remote
URL, or a local server path with query string and optional package-version
overrides. -/
inductive BenchUrl where
  | remote (url : String)
  | local (urlPath : String) (queryString : String) (version : Option PackageVersion)
deriving DecidableEq

/-- Validated and fully specified benchmark (`BenchmarkSpec` as constructed
by `src/config.ts`). -/
structure BenchmarkSpec where
  name : String
  url : BenchUrl
  browser : String
  measurement : Measurement
deriving DecidableEq

/-- A benchmark spec while defaults have not been applied yet
(`Partial<BenchmarkSpec>`). -/
structure PartialBenchmarkSpec where
  name : Option String := none
  url : Option BenchUrl := none
  browser : Option String := none
  measurement : Option Measurement := none
deriving DecidableEq

/-- One benchmark entry of the JSON config file, with optional recursive
`expand` variations. -/
inductive ConfigFileBenchmark where
  | mk (url : Option String) (name : Option String) (browser : Option String)
       (measurement : Option Measurement)
       (packageVersions : Option ConfigFilePackageVersion)
       (expand : Option (List ConfigFileBenchmark)) : ConfigFileBenchmark

def ConfigFileBenchmark.url : ConfigFileBenchmark → Option String
  | .mk u _ _ _ _ _ => u

def ConfigFileBenchmark.name : ConfigFileBenchmark → Option String
  | .mk _ n _ _ _ _ => n

def ConfigFileBenchmark.browser : ConfigFileBenchmark → Option String
  | .mk _ _ b _ _ _ => b

def ConfigFileBenchmark.measurement : ConfigFileBenchmark → Option Measurement
  | .mk _ _ _ m _ _ => m

def ConfigFileBenchmark.packageVersions : ConfigFileBenchmark → Option ConfigFilePackageVersion
  | .mk _ _ _ _ pv _ => pv

def ConfigFileBenchmark.expand : ConfigFileBenchmark → Option (List ConfigFileBenchmark)
  | .mk _ _ _ _ _ e => e

/-- The parsed JSON config file (`ConfigFile` interface). -/
structure ConfigFileJson where
  root : Option String := none
  sampleSize : Option ℤ := none
  timeout : Option ℚ := none
  horizons : Option (List String) := none
  benchmarks : List ConfigFileBenchmark := []
  resolveBareModules : Option Bool := none

/-- Validated and fully specified configuration (`Config`). -/
structure Config where
  root : String
  sampleSize : ℤ
  timeout : ℚ
  benchmarks : List BenchmarkSpec
  horizons : Horizons
  mode : String
  savePath : String
  resolveBareModules : Bool

def defaultRoot : String := "."

def defaultBrowser : String := "chrome"

def defaultSampleSize : ℤ := 50

def defaultTimeout : ℚ := 3

def defaultHorizons : List String := ["0%"]

/-- Default measurement: `fcp` for fully qualified (remote) URLs, `callback`
for local paths (`defaultMeasurement` in `src/config.ts`). -/
def defaultMeasurement : BenchUrl → Measurement
  | BenchUrl.remote _ => Measurement.fcp
  | BenchUrl.local _ _ _ => Measurement.callback

/-- The text a benchmark URL defaults its display name to: the URL string
for a remote URL, the url path plus query string for a local one. -/
def benchUrlText : BenchUrl → String
  | BenchUrl.remote url => url
  | BenchUrl.local urlPath queryString _ => urlPath ++ queryString

/-- The JS object-spread merge `{...bench, ...expandedBench}`: fields present
on the second object win, absent fields fall back to the first. -/
def mergeBench (a b : ConfigFileBenchmark) : ConfigFileBenchmark :=
  ConfigFileBenchmark.mk (b.url <|> a.url) (b.name <|> a.name) (b.browser <|> a.browser)
    (b.measurement <|> a.measurement) (b.packageVersions <|> a.packageVersions)
    (b.expand <|> a.expand)

/-- Recursively expand a benchmark configuration with its `expand`
variations (`applyExpansions` in `src/config.ts`): a benchmark with no (or
empty) `expand` list stands for itself; otherwise every recursively expanded
variation is spread over the base benchmark. -/
def applyExpansions : ConfigFileBenchmark → List ConfigFileBenchmark
  | .mk u n br m pv none => [.mk u n br m pv none]
  | .mk u n br m pv (some []) => [.mk u n br m pv (some [])]
  | .mk u n br m pv (some (e :: es)) =>
    ((e :: es).attach).flatMap (fun x =>
      (applyExpansions x.1).map
        (mergeBench (ConfigFileBenchmark.mk u n br m pv (some (e :: es)))))
decreasing_by
  simp_wf
  have hmem := List.sizeOf_lt_of_mem x.2
  simp only [List.cons.sizeOf_spec] at hmem
  omega

/-- `parseBenchmark` from `src/config.ts`.  External collaborators are
passed as functions: `isUrl` (from `./specs`) decides whether a string is a
fully qualified URL, and `resolveLocal` models the file-system-dependent
`urlFromLocalPath root diskPath`. -/
def parseBenchmark (isUrl : String → Bool)
    (resolveLocal : String → String → Except String String)
    (root : String) (b : ConfigFileBenchmark) : Except String PartialBenchmarkSpec :=
  let base : PartialBenchmarkSpec :=
    { name := b.name, browser := b.browser, measurement := b.measurement, url := none }
  match b.url with
  | none => Except.ok base
  | some url =>
    if isUrl url then Except.ok { base with url := some (BenchUrl.remote url) }
    else
      let cs := url.data
      let i := cs.findIdx (fun c => c = '?')
      let urlPath := (cs.take i).asString
      let queryString := (cs.drop i).asString
      match resolveLocal root urlPath with
      | Except.error e => Except.error e
      | Except.ok resolved =>
        Except.ok { base with
          url := some (BenchUrl.local resolved queryString
            (b.packageVersions.map (fun pv => ⟨pv.label, pv.dependencies⟩))) }

/-- `applyDefaults` from `src/config.ts`: fails when no URL survived
expansion, otherwise fills name, browser and measurement defaults. -/
def applyDefaults (p : PartialBenchmarkSpec) : Except String BenchmarkSpec :=
  match p.url with
  | none => Except.error ("No URL specified")
  | some u =>
    let name := match p.name with
      | some n => n
      | none => match u with
        | BenchUrl.remote url => url
        | BenchUrl.local urlPath queryString _ => urlPath ++ queryString
    let browser := p.browser.getD defaultBrowser
    let measurement := p.measurement.getD (defaultMeasurement u)
    Except.ok ⟨name, u, browser, measurement⟩

/-- Modelled from the spec: the generated JSON schema (`config.schema.json`,
not among the excerpted sources) validates the config file against the
annotated `ConfigFile` interface; per the interface annotations and spec
section 7, `sampleSize` has minimum 2, `timeout` has minimum 0, and
`benchmarks` requires at least one item.  Returns the validation error
messages. -/
def schemaErrors (c : ConfigFileJson) : List String :=
  (match c.sampleSize with
    | some n => if n < 2 then ["config.sampleSize must have a minimum value of 2"] else []
    | none => []) ++
  (match c.timeout with
    | some t => if t < 0 then ["config.timeout must have a minimum value of 0"] else []
    | none => []) ++
  (if c.benchmarks.isEmpty then ["config.benchmarks does not meet minimum length of 1"] else [])

/-- The benchmark loop of `parseConfigFile`: parse and default each expanded
benchmark in order, aborting on the first failure. -/
def parseBenchmarks (isUrl : String → Bool)
    (resolveLocal : String → String → Except String String) (root : String) :
    List ConfigFileBenchmark → Except String (List BenchmarkSpec)
  | [] => Except.ok []
  | b :: rest =>
    match (parseBenchmark isUrl resolveLocal root b).bind applyDefaults with
    | Except.error e => Except.error e
    | Except.ok spec =>
      match parseBenchmarks isUrl resolveLocal root rest with
      | Except.error e => Except.error e
      | Except.ok specs => Except.ok (spec :: specs)

/-- `parseConfigFile` from `src/config.ts`: schema validation first (throwing
the first error), then benchmark expansion and defaulting, then horizon
parsing, producing the fully specified `Config`. -/
def parseConfigFile (isUrl : String → Bool)
    (resolveLocal : String → String → Except String String)
    (c : ConfigFileJson) : Except String Config :=
  match schemaErrors c with
  | e :: _ => Except.error e
  | [] =>
    let root := match c.root with
      | some r => if r = "" then defaultRoot else r
      | none => defaultRoot
    match parseBenchmarks isUrl resolveLocal root (c.benchmarks.flatMap applyExpansions) with
    | Except.error e => Except.error e
    | Except.ok benchmarks =>
      match parseHorizons (c.horizons.getD defaultHorizons) with
      | Except.error e => Except.error e
      | Except.ok hz =>
        Except.ok
          { root := root
            sampleSize := c.sampleSize.getD defaultSampleSize
            timeout := c.timeout.getD defaultTimeout
            benchmarks := benchmarks
            horizons := hz
            mode := "automatic"
            savePath := ""
            resolveBareModules := c.resolveBareModules.getD true }

end Tachometer

namespace Tachometer.Format

/-! ## Result-table formatting (`format.ts`)

Numbers flowing through the formatter are modelled as `ℚ`. -/

/-- A confidence interval as consumed by the formatter. -/
structure ConfidenceInterval where
  low : ℚ
  high : ℚ
deriving DecidableEq

/-- The two slowdown confidence intervals of a non-baseline result. -/
structure Slowdown where
  absolute : ConfidenceInterval
  relative : ConfidenceInterval
deriving DecidableEq

structure BrowserInfo where
  name : String
  version : String
deriving DecidableEq

/-- The raw benchmark result consumed by the formatting dimensions. -/
structure BenchmarkResult where
  name : String
  variant : String
  implementation : String
  version : String
  millis : List ℚ
  browser : BrowserInfo
  bytesSent : ℚ
deriving DecidableEq

/-- Descriptive statistics of one result as consumed by the formatter. -/
structure SummaryStats where
  mean : ℚ
  meanCI : ConfidenceInterval
  standardDeviation : ℚ
deriving DecidableEq

/-- One variant's result row: its statistics, its slowdown comparison (absent
for a lone or baseline variant), and the baseline flag. -/
structure ResultStats where
  result : BenchmarkResult
  stats : SummaryStats
  slowdown : Option Slowdown
  isBaseline : Option Bool
deriving DecidableEq

structure ColumnConfig where
  alignment : Option String := none

/-- An abstraction for the various dimensions of data we display. -/
structure Dimension where
  label : String
  format : ResultStats → String
  tableConfig : Option ColumnConfig := none

structure ResultTable where
  dimensions : List Dimension
  results : List ResultStats

structure AutomaticResults where
  fixed : ResultTable
  unfixed : ResultTable

/-- Modelled: the external ansi-escape-sequences library only styles terminal
output, so a formatted cell is modelled by its plain text content (the
repository's own format tests compare cells after `stripAnsi`). -/
def ansiFormat (_style : String) (text : String) : String := text

/-- Zero-pad a digit string on the left to the given width. -/
def padZeros (w : ℕ) (s : String) : String :=
  String.mk (List.replicate (w - s.length) '0') ++ s

/-- Model of JS `Number.prototype.toFixed`: render `q` with exactly `digits`
fractional digits, rounding to the nearest representable value (tie-breaking
at half is immaterial to every property proved here). -/
def formatFixed (digits : ℕ) (q : ℚ) : String :=
  let m : ℤ := round (q * (10 : ℚ) ^ digits)
  let sign := if m < 0 then "-" else ""
  let n : ℕ := m.natAbs
  let base : ℕ := 10 ^ digits
  if digits = 0 then sign ++ toString n
  else sign ++ toString (n / base) ++ "." ++ padZeros digits (toString (n % base))

/-- Format a confidence interval as `[low, high]`. -/
def formatConfidenceInterval (ci : ConfidenceInterval) (fmt : ℚ → String) : String :=
  ansiFormat ("gray") ("[") ++ fmt ci.low ++ ansiFormat ("gray") (",") ++ " "
    ++ fmt ci.high ++ ansiFormat ("gray") ("]")

/-- Prefix positive numbers with a (red) `+` and negative ones with a
(green) `-`. -/
def colorizeSign (n : ℚ) (fmt : ℚ → String) : String :=
  if 0 < n then ansiFormat ("red bold") ("+") ++ fmt n
  else if n < 0 then ansiFormat ("green bold") ("-") ++ fmt (-n)
  else fmt n

def benchmarkDimension : Dimension :=
  { label := "Benchmark"
    format := fun r => r.result.name }

def variantDimension : Dimension :=
  { label := "Variant"
    tableConfig := some { alignment := some ("right") }
    format := fun r => r.result.variant }

def implementationDimension : Dimension :=
  { label := "Impl"
    format := fun r => r.result.implementation }

def versionDimension : Dimension :=
  { label := "Version"
    format := fun r => r.result.version }

def browserDimension : Dimension :=
  { label := "Browser"
    format := fun r => r.result.browser.name ++ " " ++ r.result.browser.version }

def sampleSizeDimension : Dimension :=
  { label := "Sample size"
    format := fun r => toString r.result.millis.length }

def bytesSentDimension : Dimension :=
  { label := "Bytes"
    format := fun r => formatFixed 2 (r.result.bytesSent / 1024) ++ " KiB" }

def runtimeConfidenceIntervalDimension : Dimension :=
  { label := "Runtime [95% CI]"
    tableConfig := some { alignment := some ("right") }
    format := fun r =>
      formatConfidenceInterval r.stats.meanCI (fun n => formatFixed 3 n ++ "ms") }

def runtimePointEstimateDimension : Dimension :=
  { label := "Runtime"
    format := fun r => ansiFormat ("blue") (formatFixed 3 r.stats.mean) ++ " ms" }

def absoluteSlowdownDimension : Dimension :=
  { label := "Slowdown [95% CI]"
    tableConfig := some { alignment := some ("right") }
    format := fun r =>
      if r.isBaseline = some true then ansiFormat ("gray") ("N/A        ")
      else match r.slowdown with
        | none => ansiFormat ("gray") ("N/A        ")
        | some s =>
          formatConfidenceInterval s.absolute
            (fun n => colorizeSign n (fun n => formatFixed 3 n) ++ "ms") }

def relativeSlowdownDimension : Dimension :=
  { label := "Relative [95% CI]"
    tableConfig := some { alignment := some ("right") }
    format := fun r =>
      if r.isBaseline = some true then ansiFormat ("gray") ("N/A        ")
      else match r.slowdown with
        | none => ansiFormat ("gray") ("N/A        ")
        | some s =>
          formatConfidenceInterval s.relative
            (fun n => colorizeSign n (fun n => formatFixed 2 (n * 100) ++ "%")) }

def directionDimension : Dimension :=
  { label := "Direction"
    tableConfig := some { alignment := some ("center") }
    format := fun r =>
      if r.isBaseline = some true then ansiFormat ("bold blue") ("baseline")
      else match r.slowdown with
        | none => ansiFormat ("bold blue") ("baseline")
        | some s =>
          if 0 < s.absolute.low then ansiFormat ("bold red") ("slower")
          else if s.absolute.high < 0 then ansiFormat ("bold green") ("faster")
          else ansiFormat ("bold gray") ("unsure") }

def standardDeviationDimension : Dimension :=
  { label := "StdDev (CV)"
    format := fun r =>
      formatFixed 2 r.stats.standardDeviation ++ "ms ("
        ++ formatFixed 0 (r.stats.standardDeviation / r.stats.mean * 100) ++ "%)" }

/-- Create a manual mode result table. -/
def manualResultTable (result : ResultStats) : ResultTable :=
  { dimensions :=
      [benchmarkDimension, variantDimension, implementationDimension, versionDimension,
       browserDimension, bytesSentDimension, runtimePointEstimateDimension]
    results := [result] }

/-- The dimensions that may move to the fixed table when they share one value
across all results. -/
def possiblyFixedDimensions : List Dimension :=
  [benchmarkDimension, variantDimension, implementationDimension, versionDimension,
   browserDimension, sampleSizeDimension, bytesSentDimension]

/-- Create an automatic mode result table: dimensions sharing one value over
all results go to the fixed table, the rest plus the primary observed results
go to the unfixed table, and the three comparison columns appear only when
more than one result is present. -/
def automaticResultTable (results : List ResultStats) : AutomaticResults :=
  let fixed := possiblyFixedDimensions.filter
    (fun d => (results.map d.format).dedup.length == 1)
  let unfixedPF := possiblyFixedDimensions.filter
    (fun d => !((results.map d.format).dedup.length == 1))
  let unfixed := unfixedPF
    ++ [runtimeConfidenceIntervalDimension, standardDeviationDimension]
    ++ (if 1 < results.length then
          [absoluteSlowdownDimension, relativeSlowdownDimension, directionDimension]
        else [])
  { fixed := { dimensions := fixed, results := results.take 1 }
    unfixed := { dimensions := unfixed, results := results } }

end Tachometer.Format

namespace Tachometer.Stats

/-! ## Incremental statistics collector and pairwise comparison builder

Modelled from the spec: `stats.ts` is not among the excerpted sources.
Spec 4.2: mean and sample standard deviation use the standard unbiased
estimators and the mean confidence interval is the Student-t interval
`mean ± t(df, 0.975) · stddev / sqrt n` with `df = n - 1`.  Spec 4.3 (and
design note 9): the absolute slowdown of `a` relative to `b` is a Welch-style
two-sample t interval around `mean a - mean b`, and the relative slowdown is
the absolute interval divided by `mean b`.  The t-distribution quantile table
is supplied as a function `tq` from degrees of freedom to the 0.975 quantile
(every real table is nonnegative on this range, which is the only property
used). -/

structure ConfidenceInterval where
  low : ℝ
  high : ℝ

structure SummaryStats where
  mean : ℝ
  standardDeviation : ℝ
  meanCI : ConfidenceInterval

structure Comparison where
  absolute : ConfidenceInterval
  relative : ConfidenceInterval

noncomputable def listMean (l : List ℝ) : ℝ := l.sum / l.length

/-- Unbiased sample variance with denominator `n - 1`. -/
noncomputable def sampleVariance (l : List ℝ) : ℝ :=
  ((l.map (fun x => (x - listMean l) ^ 2)).sum) / ((l.length : ℝ) - 1)

noncomputable def sampleStdDev (l : List ℝ) : ℝ := Real.sqrt (sampleVariance l)

/-- Margin of the Student-t confidence interval of the mean. -/
noncomputable def ciMargin (tq : ℕ → ℝ) (l : List ℝ) : ℝ :=
  tq (l.length - 1) * sampleStdDev l / Real.sqrt l.length

noncomputable def summaryStats (tq : ℕ → ℝ) (l : List ℝ) : SummaryStats :=
  { mean := listMean l
    standardDeviation := sampleStdDev l
    meanCI := { low := listMean l - ciMargin tq l, high := listMean l + ciMargin tq l } }

/-- Margin of the Welch two-sample interval for the difference of means. -/
noncomputable def slowdownMargin (tq : ℕ → ℝ) (a b : List ℝ) : ℝ :=
  tq (a.length + b.length - 2)
    * Real.sqrt (sampleVariance a / a.length + sampleVariance b / b.length)

/-- Confidence interval of `mean a - mean b` in milliseconds. -/
noncomputable def absoluteSlowdown (tq : ℕ → ℝ) (a b : List ℝ) : ConfidenceInterval :=
  { low := (listMean a - listMean b) - slowdownMargin tq a b
    high := (listMean a - listMean b) + slowdownMargin tq a b }

/-- The absolute slowdown interval as a fraction of the baseline mean. -/
noncomputable def relativeSlowdown (tq : ℕ → ℝ) (a b : List ℝ) : ConfidenceInterval :=
  { low := (absoluteSlowdown tq a b).low / listMean b
    high := (absoluteSlowdown tq a b).high / listMean b }

noncomputable def computeComparison (tq : ℕ → ℝ) (a b : List ℝ) : Comparison :=
  { absolute := absoluteSlowdown tq a b, relative := relativeSlowdown tq a b }

/-- One evaluation round over the scheduler-owned sample sets: recompute
every variant's descriptive statistics and the full pairwise comparison
matrix, returning the sample sets for the next round (they are read, never
mutated — spec section 3 lifecycle). -/
noncomputable def statsRound (tq : ℕ → ℝ) (sets : List (List ℝ)) :
    (List SummaryStats × List (List Comparison)) × List (List ℝ) :=
  ((sets.map (summaryStats tq),
    sets.map (fun a => sets.map (fun b => computeComparison tq a b))), sets)

end Tachometer.Stats

namespace Tachometer.Scheduler

/-! ## Auto-sample scheduler

Modelled from the spec: the scheduler (spec 4.5) is not among the excerpted
sources.  The external statistics component is abstracted as a function
`cmp` from two sample sets to the pair of (absolute, relative) slowdown
intervals, the external benchmark runner as an oracle giving the measured
duration for each variant and round, and wall-clock time as a per-round cost
function.  The wall-clock budget is checked at the top of each collecting
round (spec section 5); the zero-timeout manual mode bypasses this loop
entirely, so the model covers the auto-sampling loop. -/

open Tachometer (Horizons)

structure SchedulerConfig where
  variants : ℕ
  minSampleSize : ℕ
  timeout : ℚ
  horizons : Horizons
  baseline : Option ℕ := none

structure SchedulerState where
  samples : List (List ℚ)
  round : ℕ
  elapsed : ℚ

/-- The two terminal states of the scheduler, each carrying the collected
sample sets from which the final `ResultStats` are computed (partial results
are always returned on timeout, never discarded). -/
inductive SchedulerOutcome where
  | resolved (results : List (List ℚ))
  | timedOut (results : List (List ℚ))

/-- Horizon resolution check (spec 4.4): an interval is resolved against a
horizon value `h` when it does not straddle `h`. -/
def intervalResolved (lo hi h : ℚ) : Bool := decide (h < lo) || decide (hi < h)

/-- A comparison is resolved when both of its interval views are resolved
against every configured horizon of the matching unit (vacuously true for a
unit with no horizons). -/
def comparisonResolved (hz : Horizons) (absCI relCI : ℚ × ℚ) : Bool :=
  hz.absolute.all (fun h => intervalResolved absCI.1 absCI.2 h) &&
  hz.relative.all (fun h => intervalResolved relCI.1 relCI.2 h)

/-- Every ordered comparison over the non-baseline, non-diagonal variant
pairs is resolved. -/
def allResolved (cmp : List ℚ → List ℚ → (ℚ × ℚ) × (ℚ × ℚ))
    (hz : Horizons) (baseline : Option ℕ) (samples : List (List ℚ)) : Bool :=
  let n := samples.length
  (List.range n).all fun i =>
    (List.range n).all fun j =>
      i == j || baseline == some i || baseline == some j ||
        (match samples[i]?, samples[j]? with
         | some a, some b => comparisonResolved hz (cmp a b).1 (cmp a b).2
         | _, _ => true)

/-- Collect one more sample for each variant (round-robin across variants
within one round). -/
def collectRound (oracle : ℕ → ℕ → ℚ) (rnd : ℕ) (samples : List (List ℚ)) :
    List (List ℚ) :=
  (List.range samples.length).zipWith (fun i v => v ++ [oracle i rnd]) samples

def minReached (minSize : ℕ) (samples : List (List ℚ)) : Bool :=
  samples.all (fun v => decide (minSize ≤ v.length))

/-- One transition of the scheduler state machine: timeout check at the top
of the round, then the resolved check, otherwise one more collecting round
advancing the elapsed clock. -/
def schedulerStep (cfg : SchedulerConfig)
    (cmp : List ℚ → List ℚ → (ℚ × ℚ) × (ℚ × ℚ))
    (oracle : ℕ → ℕ → ℚ) (cost : ℕ → ℚ) (s : SchedulerState) :
    SchedulerState ⊕ SchedulerOutcome :=
  if cfg.timeout ≤ s.elapsed then Sum.inr (SchedulerOutcome.timedOut s.samples)
  else if minReached cfg.minSampleSize s.samples
      && allResolved cmp cfg.horizons cfg.baseline s.samples then
    Sum.inr (SchedulerOutcome.resolved s.samples)
  else
    Sum.inl { samples := collectRound oracle s.round s.samples
              round := s.round + 1
              elapsed := s.elapsed + cost s.round }

/-- Initial state: all sample sets empty, elapsed time zero. -/
def initState (cfg : SchedulerConfig) : SchedulerState :=
  { samples := List.replicate cfg.variants [], round := 0, elapsed := 0 }

/-- The scheduler run, exposed as the iterated step function: `schedulerIter
n` is the configuration after `n` transitions, `Sum.inr` once terminal. -/
def schedulerIter (cfg : SchedulerConfig)
    (cmp : List ℚ → List ℚ → (ℚ × ℚ) × (ℚ × ℚ))
    (oracle : ℕ → ℕ → ℚ) (cost : ℕ → ℚ) : ℕ → SchedulerState ⊕ SchedulerOutcome
  | 0 => Sum.inl (initState cfg)
  | n + 1 =>
    match schedulerIter cfg cmp oracle cost n with
    | Sum.inl s => schedulerStep cfg cmp oracle cost s
    | Sum.inr o => Sum.inr o

/-- Whether the scheduler run has reached a terminal outcome. -/
def isTerminal : SchedulerState ⊕ SchedulerOutcome → Bool
  | Sum.inl _ => false
  | Sum.inr _ => true

/-- Upper bound on the number of transitions before the scheduler must have
terminated: one more than `timeout / ε` rounds, where `ε` lower-bounds the
wall-clock cost of one collecting round. -/
def termBound (cfg : SchedulerConfig) (ε : ℚ) : ℕ := ⌈cfg.timeout / ε⌉₊ + 1

end Tachometer.Scheduler

namespace Tachometer

/-! ## Shared concrete fixtures used by the witness theorems -/

def sampleBrowserInfo : Format.BrowserInfo := ⟨"chrome", "75"⟩

def sampleBenchResult : Format.BenchmarkResult :=
  ⟨"bench", "", "", "", [9, 11], sampleBrowserInfo, 1024⟩

def sampleSummary : Format.SummaryStats := ⟨10, ⟨9, 11⟩, 1⟩

/-- A result row flagged as the baseline (no slowdown computed). -/
def baselineRow : Format.ResultStats := ⟨sampleBenchResult, sampleSummary, none, some true⟩

/-- A non-baseline row whose absolute slowdown interval touches zero. -/
def unsureRow : Format.ResultStats :=
  ⟨sampleBenchResult, sampleSummary, some ⟨⟨0, 1⟩, ⟨0, 1/10⟩⟩, none⟩

/-- A one-variant scheduler configuration with a one-minute budget. -/
def schedCfg0 : Scheduler.SchedulerConfig :=
  { variants := 1, minSampleSize := 0, timeout := 1, horizons := ⟨[], []⟩ }

/-- An `isUrl` oracle accepting everything. -/
def isUrlAll : String → Bool := fun _ => true

/-- A local-path resolver serving every path as itself. -/
def resolveLocalId : String → String → Except String String := fun _ p => Except.ok p

/-- A benchmark entry with just a remote URL. -/
def remoteBench0 : ConfigFileBenchmark :=
  ConfigFileBenchmark.mk (some ("http://example.com")) none none none none none

/-- A minimal valid config file with no horizons specified. -/
def cfgJson0 : ConfigFileJson := { benchmarks := [remoteBench0] }

/-- A config file with an invalid (too small) sample size. -/
def cfgJsonBadSample : ConfigFileJson := { benchmarks := [remoteBench0], sampleSize := some 1 }

/-- The fully specified configuration that `cfgJson0` parses to. -/
def cfgParsed0 : Config :=
  { root := "."
    sampleSize := 50
    timeout := 3
    benchmarks := [⟨"http://example.com", BenchUrl.remote ("http://example.com"),
      "chrome", Measurement.fcp⟩]
    horizons := ⟨[], [0]⟩
    mode := "automatic"
    savePath := ""
    resolveBareModules := true }

/-! ## Claim theorems -/

/-- C1: for every `ResultStats`, the direction verdict is exactly: baseline
flag set or no slowdown comparison → `"baseline"`; else `absolute.low > 0` →
`"slower"`; else `absolute.high < 0` → `"faster"`; otherwise — including the
boundary cases `low = 0` and `high = 0` — `"unsure"`. -/
theorem directionDimension_classification (r : Format.ResultStats) :
    ((r.isBaseline = some true ∨ r.slowdown = none) →
      Format.directionDimension.format r = "baseline")
    ∧ (∀ s, r.slowdown = some s → r.isBaseline ≠ some true →
        ((0 < s.absolute.low → Format.directionDimension.format r = "slower")
        ∧ (¬ 0 < s.absolute.low → s.absolute.high < 0 →
            Format.directionDimension.format r = "faster")
        ∧ (¬ 0 < s.absolute.low → ¬ s.absolute.high < 0 →
            Format.directionDimension.format r = "unsure")
        ∧ (s.absolute.low ≤ s.absolute.high →
            s.absolute.low = 0 ∨ s.absolute.high = 0 →
            Format.directionDimension.format r = "unsure"))) := by
  constructor
  · rintro (h | h)
    · simp [Format.directionDimension, Format.ansiFormat, h]
    · by_cases hb : r.isBaseline = some true <;>
        simp [Format.directionDimension, Format.ansiFormat, h, hb]
  · intro s hs hb
    refine ⟨?_, ?_, ?_, ?_⟩
    · intro hlow
      simp [Format.directionDimension, Format.ansiFormat, hs, hb, hlow]
    · intro hlow hhigh
      simp [Format.directionDimension, Format.ansiFormat, hs, hb, hlow, hhigh]
    · intro hlow hhigh
      simp [Format.directionDimension, Format.ansiFormat, hs, hb, hlow, hhigh]
    · intro hle hzero
      have hlow : ¬ 0 < s.absolute.low := by
        rcases hzero with h0 | h0
        · rw [h0]; exact lt_irrefl 0
        · rw [h0] at hle; intro hc; linarith
      have hhigh : ¬ s.absolute.high < 0 := by
        rcases hzero with h0 | h0
        · rw [h0] at hle; intro hc; linarith
        · rw [h0]; exact lt_irrefl 0
      simp [Format.directionDimension, Format.ansiFormat, hs, hb, hlow, hhigh]

/-- Witness for C1: the baseline fixture row formats to `"baseline"` and the
boundary fixture row (absolute slowdown interval `[0, 1]`) to `"unsure"`. -/
theorem directionDimension_classification_w :
    Format.directionDimension.format baselineRow = "baseline"
    ∧ Format.directionDimension.format unsureRow = "unsure" := by
  constructor
  · exact (directionDimension_classification baselineRow).1 (Or.inl rfl)
  · exact ((directionDimension_classification unsureRow).2 ⟨⟨0, 1⟩, ⟨0, 1/10⟩⟩ rfl
      (by decide)).2.2.2 (by norm_num) (Or.inl rfl)

/-- C4: for every `ResultStats` flagged as baseline (or lacking a slowdown
comparison), both the absolute-slowdown and the relative-slowdown columns
format to the `"N/A"` placeholder rather than to a confidence interval. -/
theorem slowdownDimensions_baseline_NA (r : Format.ResultStats)
    (h : r.isBaseline = some true ∨ r.slowdown = none) :
    Format.absoluteSlowdownDimension.format r = "N/A        "
    ∧ Format.relativeSlowdownDimension.format r = "N/A        " := by
  rcases h with h | h
  · simp [Format.absoluteSlowdownDimension, Format.relativeSlowdownDimension,
      Format.ansiFormat, h]
  · by_cases hb : r.isBaseline = some true <;>
      simp [Format.absoluteSlowdownDimension, Format.relativeSlowdownDimension,
        Format.ansiFormat, h, hb]

/-- Witness for C4 at the baseline fixture row. -/
theorem slowdownDimensions_baseline_NA_w :
    Format.absoluteSlowdownDimension.format baselineRow = "N/A        "
    ∧ Format.relativeSlowdownDimension.format baselineRow = "N/A        " :=
  slowdownDimensions_baseline_NA baselineRow (Or.inl rfl)

/-- C8: recomputing the descriptive statistics and the comparison matrix a
second time on the sample sets returned by the first round yields identical
results, and the sample sets come back unchanged (the computation is a pure
function of the `SampleSet`s). -/
theorem statsRound_recompute_pure (tq : ℕ → ℝ) (sets : List (List ℝ)) :
    (Stats.statsRound tq (Stats.statsRound tq sets).2).1 = (Stats.statsRound tq sets).1
    ∧ (Stats.statsRound tq (Stats.statsRound tq sets).2).2 = sets :=
  ⟨rfl, rfl⟩

/-- The unbiased sample variance is nonnegative (division by the possibly
zero or negative `n - 1` is handled by the zero-division convention). -/
theorem sampleVariance_nonneg (l : List ℝ) : 0 ≤ Stats.sampleVariance l := by
  rcases l with _ | ⟨x, xs⟩
  · simp [Stats.sampleVariance]
  · unfold Stats.sampleVariance
    apply div_nonneg
    · apply List.sum_nonneg
      intro y hy
      obtain ⟨z, hz, rfl⟩ := List.mem_map.mp hy
      positivity
    · simp [List.length_cons]

theorem ciMargin_nonneg (tq : ℕ → ℝ) (htq : ∀ d, 0 ≤ tq d) (l : List ℝ) :
    0 ≤ Stats.ciMargin tq l :=
  div_nonneg (mul_nonneg (htq _) (Real.sqrt_nonneg _)) (Real.sqrt_nonneg _)

/-- With fewer than two samples the Student-t margin is zero (the interval
degenerates to a point). -/
theorem ciMargin_degenerate (tq : ℕ → ℝ) (l : List ℝ) (h : l.length < 2) :
    Stats.ciMargin tq l = 0 := by
  rcases l with _ | ⟨x, _ | ⟨y, t⟩⟩
  · simp [Stats.ciMargin, Stats.sampleStdDev, Stats.sampleVariance]
  · simp [Stats.ciMargin, Stats.sampleStdDev, Stats.sampleVariance]
  · exfalso
    simp only [List.length_cons] at h
    omega

theorem slowdownMargin_nonneg (tq : ℕ → ℝ) (htq : ∀ d, 0 ≤ tq d) (a b : List ℝ) :
    0 ≤ Stats.slowdownMargin tq a b :=
  mul_nonneg (htq _) (Real.sqrt_nonneg _)

theorem listMean_nonneg (l : List ℝ) (h : ∀ x ∈ l, 0 ≤ x) : 0 ≤ Stats.listMean l :=
  div_nonneg (List.sum_nonneg h) (Nat.cast_nonneg _)

/-- C9: the mean confidence interval always satisfies `low ≤ mean ≤ high`
(and degenerates to `low = high = mean` when fewer than two samples exist),
and both slowdown confidence intervals satisfy `low ≤ high` (the sample
durations of the baseline variant being nonnegative). -/
theorem stats_ci_invariant (tq : ℕ → ℝ) (htq : ∀ d, 0 ≤ tq d) (a b : List ℝ)
    (hb : ∀ x ∈ b, 0 ≤ x) :
    ((Stats.summaryStats tq a).meanCI.low ≤ (Stats.summaryStats tq a).mean
      ∧ (Stats.summaryStats tq a).mean ≤ (Stats.summaryStats tq a).meanCI.high)
    ∧ (a.length < 2 →
        (Stats.summaryStats tq a).meanCI.low = (Stats.summaryStats tq a).mean
        ∧ (Stats.summaryStats tq a).meanCI.high = (Stats.summaryStats tq a).mean)
    ∧ (Stats.absoluteSlowdown tq a b).low ≤ (Stats.absoluteSlowdown tq a b).high
    ∧ (Stats.relativeSlowdown tq a b).low ≤ (Stats.relativeSlowdown tq a b).high := by
  have hm := ciMargin_nonneg tq htq a
  have hs := slowdownMargin_nonneg tq htq a b
  have habs : (Stats.absoluteSlowdown tq a b).low ≤ (Stats.absoluteSlowdown tq a b).high := by
    simp only [Stats.absoluteSlowdown]
    linarith
  refine ⟨⟨?_, ?_⟩, ?_, habs, ?_⟩
  · simp only [Stats.summaryStats]
    linarith
  · simp only [Stats.summaryStats]
    linarith
  · intro h
    have h0 := ciMargin_degenerate tq a h
    simp [Stats.summaryStats, h0]
  · have hmb := listMean_nonneg b hb
    rcases eq_or_lt_of_le hmb with h0 | h0
    · have h0s : Stats.listMean b = 0 := h0.symm
      simp [Stats.relativeSlowdown, h0s]
    · simp only [Stats.relativeSlowdown]
      exact (div_le_div_iff_of_pos_right h0).mpr habs

/-- Witness for C9 with a constant quantile table and empty sample lists. -/
theorem stats_ci_invariant_w :
    (Stats.summaryStats (fun _ => (1:ℝ)) []).meanCI.low
      ≤ (Stats.summaryStats (fun _ => (1:ℝ)) []).mean :=
  (stats_ci_invariant (fun _ => 1) (fun _ => zero_le_one) [] [] (by simp)).1.1

/-- C10: `applyDefaults` fails exactly when the url is undefined; otherwise
it fills the unspecified fields deterministically — name defaults to the URL
text, browser to `"chrome"`, and measurement to `fcp` for remote URLs and
`callback` for local paths. -/
theorem applyDefaults_spec (p : PartialBenchmarkSpec) :
    ((∃ e, applyDefaults p = Except.error e) ↔ p.url = none)
    ∧ (∀ u, p.url = some u →
        applyDefaults p = Except.ok
          { name := p.name.getD (benchUrlText u)
            url := u
            browser := p.browser.getD ("chrome")
            measurement := p.measurement.getD
              (match u with
               | BenchUrl.remote _ => Measurement.fcp
               | BenchUrl.local _ _ _ => Measurement.callback) }) := by
  rcases hu : p.url with _ | u
  · constructor
    · constructor
      · intro _; rfl
      · intro _
        exact ⟨"No URL specified", by simp [applyDefaults, hu]⟩
    · intro u hu'
      exact Option.noConfusion hu'
  · constructor
    · simp [applyDefaults, hu]
    · intro u' hu'
      injection hu' with h
      subst h
      cases u <;> rcases hn : p.name with _ | n <;>
        simp [applyDefaults, hu, hn, benchUrlText, defaultBrowser, defaultMeasurement]

/-- Witness for C10 at a remote-URL benchmark with no optional fields. -/
theorem applyDefaults_spec_w :
    applyDefaults { url := some (BenchUrl.remote ("http://example.com")) } =
      Except.ok ⟨"http://example.com", BenchUrl.remote ("http://example.com"),
        "chrome", Measurement.fcp⟩ :=
  (applyDefaults_spec _).2 (BenchUrl.remote ("http://example.com")) rfl

/-- After `n` non-terminal transitions the elapsed clock is at least `n · ε`
whenever every collecting round costs at least `ε`. -/
theorem schedulerIter_elapsed_lb (cfg : Scheduler.SchedulerConfig)
    (cmp : List ℚ → List ℚ → (ℚ × ℚ) × (ℚ × ℚ)) (oracle : ℕ → ℕ → ℚ)
    (cost : ℕ → ℚ) (ε : ℚ) (hc : ∀ n, ε ≤ cost n) :
    ∀ n s, Scheduler.schedulerIter cfg cmp oracle cost n = Sum.inl s →
      (n : ℚ) * ε ≤ s.elapsed := by
  intro n
  induction n with
  | zero =>
    intro s h
    simp only [Scheduler.schedulerIter] at h
    injection h with h
    subst h
    simp [Scheduler.initState]
  | succ n ih =>
    intro s h
    rcases hn : Scheduler.schedulerIter cfg cmp oracle cost n with s' | o
    · simp only [Scheduler.schedulerIter, hn] at h
      simp only [Scheduler.schedulerStep] at h
      split_ifs at h
      all_goals cases h
      have h1 := ih s' hn
      have h2 := hc s'.round
      show (((n + 1 : ℕ) : ℚ)) * ε ≤ s'.elapsed + cost s'.round
      push_cast
      linarith
    · simp only [Scheduler.schedulerIter, hn] at h
      exact Sum.noConfusion h

/-- C7: for every finite positive wall-clock budget, every variant set and
every positive lower bound `ε` on the cost of one collecting round, the
scheduler reaches a terminal outcome (the outcome type has exactly the
`resolved` and `timedOut` constructors) within `termBound` transitions — it
never loops indefinitely. -/
theorem scheduler_terminates (cfg : Scheduler.SchedulerConfig)
    (cmp : List ℚ → List ℚ → (ℚ × ℚ) × (ℚ × ℚ)) (oracle : ℕ → ℕ → ℚ)
    (cost : ℕ → ℚ) (ε : ℚ) (hT : 0 < cfg.timeout) (hε : 0 < ε)
    (hc : ∀ n, ε ≤ cost n) :
    Scheduler.isTerminal
      (Scheduler.schedulerIter cfg cmp oracle cost (Scheduler.termBound cfg ε)) = true := by
  have hk : cfg.timeout ≤ ((⌈cfg.timeout / ε⌉₊ : ℕ) : ℚ) * ε := by
    have h1 : cfg.timeout / ε ≤ ((⌈cfg.timeout / ε⌉₊ : ℕ) : ℚ) := Nat.le_ceil _
    have h2 := mul_le_mul_of_nonneg_right h1 hε.le
    rwa [div_mul_cancel₀ _ (ne_of_gt hε)] at h2
  rcases hiter : Scheduler.schedulerIter cfg cmp oracle cost ⌈cfg.timeout / ε⌉₊ with s | o
  · have hel := schedulerIter_elapsed_lb cfg cmp oracle cost ε hc _ s hiter
    have htime : cfg.timeout ≤ s.elapsed := le_trans hk hel
    have hstep : Scheduler.schedulerIter cfg cmp oracle cost (⌈cfg.timeout / ε⌉₊ + 1)
        = Sum.inr (Scheduler.SchedulerOutcome.timedOut s.samples) := by
      simp only [Scheduler.schedulerIter, hiter]
      simp only [Scheduler.schedulerStep]
      rw [if_pos htime]
    rw [Scheduler.termBound, hstep]
    rfl
  · have hstep : Scheduler.schedulerIter cfg cmp oracle cost (⌈cfg.timeout / ε⌉₊ + 1)
        = Sum.inr o := by
      simp only [Scheduler.schedulerIter, hiter]
    rw [Scheduler.termBound, hstep]
    rfl

/-- Membership after an `insortNew` insertion: the inserted value or an
original element. -/
theorem mem_insortNew {q z : ℚ} : ∀ {l : List ℚ}, z ∈ insortNew q l → z = q ∨ z ∈ l := by
  intro l
  induction l with
  | nil =>
    intro h
    simp [insortNew] at h
    exact Or.inl h
  | cons x xs ih =>
    intro h
    simp only [insortNew] at h
    split_ifs at h with h1 h2
    · rcases List.mem_cons.mp h with rfl | h'
      · exact Or.inl rfl
      · exact Or.inr h'
    · exact Or.inr h
    · rcases List.mem_cons.mp h with rfl | h'
      · exact Or.inr (List.mem_cons.mpr (Or.inl rfl))
      · rcases ih h' with h'' | h''
        · exact Or.inl h''
        · exact Or.inr (List.mem_cons.mpr (Or.inr h''))

/-- `insortNew` preserves strict ascending order (hence duplicate freedom). -/
theorem pairwise_insortNew (q : ℚ) :
    ∀ (l : List ℚ), l.Pairwise (· < ·) → (insortNew q l).Pairwise (· < ·) := by
  intro l
  induction l with
  | nil =>
    intro _
    simp [insortNew]
  | cons x xs ih =>
    intro hp
    rcases List.pairwise_cons.mp hp with ⟨hx, hxs⟩
    simp only [insortNew]
    split_ifs with h1 h2
    · refine List.pairwise_cons.mpr ⟨?_, hp⟩
      intro z hz
      rcases List.mem_cons.mp hz with rfl | hz'
      · exact h1
      · exact lt_trans h1 (hx z hz')
    · exact hp
    · refine List.pairwise_cons.mpr ⟨?_, ih hxs⟩
      intro z hz
      rcases mem_insortNew hz with rfl | hz'
      · exact lt_of_le_of_ne (not_lt.mp h1) (fun he => h2 he.symm)
      · exact hx z hz'

theorem pairwise_foldl_insort (vs : List ℚ) :
    ∀ l : List ℚ, l.Pairwise (· < ·) →
      (vs.foldl (fun l q => insortNew q l) l).Pairwise (· < ·) := by
  induction vs with
  | nil => intro l h; exact h
  | cons v vs ih =>
    intro l h
    exact ih _ (pairwise_insortNew v l h)

theorem addHorizon_pairwise (h : Horizons) (p : ParsedHorizon)
    (ha : h.absolute.Pairwise (· < ·)) (hr : h.relative.Pairwise (· < ·)) :
    (addHorizon h p).absolute.Pairwise (· < ·)
    ∧ (addHorizon h p).relative.Pairwise (· < ·) := by
  rcases p with ⟨es, v, u⟩
  cases u
  · exact ⟨pairwise_foldl_insort _ _ ha, hr⟩
  · exact ⟨ha, pairwise_foldl_insort _ _ hr⟩

theorem parseHorizonsAux_pairwise :
    ∀ (ts : List String) (acc h : Horizons),
      acc.absolute.Pairwise (· < ·) → acc.relative.Pairwise (· < ·) →
      parseHorizonsAux ts acc = Except.ok h →
      h.absolute.Pairwise (· < ·) ∧ h.relative.Pairwise (· < ·) := by
  intro ts
  induction ts with
  | nil =>
    intro acc h ha hr heq
    simp only [parseHorizonsAux] at heq
    injection heq with heq
    subst heq
    exact ⟨ha, hr⟩
  | cons t ts ih =>
    intro acc h ha hr heq
    simp only [parseHorizonsAux] at heq
    rcases hp : parseHorizonToken t with e | p
    · rw [hp] at heq
      exact Except.noConfusion heq
    · rw [hp] at heq
      have hadd := addHorizon_pairwise acc p ha hr
      exact ih _ h hadd.1 hadd.2 heq

/-- The default horizon list `["0%"]` parses to the horizon set containing
exactly the relative threshold `0` (not `{0, -0}`). -/
theorem parseHorizons_default : parseHorizons ["0%"] = Except.ok ⟨[], [0]⟩ := by
  have h2 : (((0 : ℕ) : ℚ) / 100) = 0 := by norm_num
  have h1 : parseHorizonToken ("0%")
      = Except.ok ⟨false, ((0 : ℕ) : ℚ) / 100, HorizonUnit.pct⟩ := rfl
  rw [h2] at h1
  show parseHorizonsAux ["0%"] ⟨[], []⟩ = Except.ok ⟨[], [0]⟩
  simp only [parseHorizonsAux, h1]
  rfl

/-- C2: a horizon token with an explicit sign, or with magnitude exactly
zero, inserts only that single signed value; a bare unsigned nonzero
magnitude inserts both the positive and the negative magnitude (`"1ms"`
yields absolute set `[-1, 1]`, `"+1ms"` yields `[1]`, `"0%"` yields relative
set `[0]`); and every successfully parsed horizon set consists of two
ascending-sorted, duplicate-free arrays. -/
theorem parseHorizons_spec :
    (parseHorizons ["1ms"] = Except.ok ⟨[-1, 1], []⟩)
    ∧ (parseHorizons ["+1ms"] = Except.ok ⟨[1], []⟩)
    ∧ (parseHorizons ["0%"] = Except.ok ⟨[], [0]⟩)
    ∧ (∀ p : ParsedHorizon, p.explicitSign = true ∨ p.value = 0 →
        horizonInsertValues p = [p.value])
    ∧ (∀ p : ParsedHorizon, p.explicitSign = false → p.value ≠ 0 →
        horizonInsertValues p = [p.value, -p.value])
    ∧ (∀ ts h, parseHorizons ts = Except.ok h →
        h.absolute.Pairwise (· < ·) ∧ h.relative.Pairwise (· < ·)) := by
  refine ⟨rfl, rfl, parseHorizons_default, ?_, ?_, ?_⟩
  · intro p hp
    rcases hp with hp | hp <;> simp [horizonInsertValues, hp]
  · intro p h1 h2
    simp [horizonInsertValues, h1, h2]
  · intro ts h heq
    exact parseHorizonsAux_pairwise ts ⟨[], []⟩ h List.Pairwise.nil List.Pairwise.nil heq

/-- Witness for C2: the signed token fixture inserts a single value, and the
set parsed from `"1ms"` is ascending. -/
theorem parseHorizons_spec_w :
    horizonInsertValues ⟨true, 1, HorizonUnit.ms⟩ = [1]
    ∧ List.Pairwise (fun a b : ℚ => a < b) [-1, 1] :=
  ⟨parseHorizons_spec.2.2.2.1 ⟨true, 1, HorizonUnit.ms⟩ (Or.inl rfl),
   (parseHorizons_spec.2.2.2.2.2 ["1ms"] ⟨[-1, 1], []⟩ parseHorizons_spec.1).1⟩

/-- Witness for C7: a one-variant scheduler with unit budget and unit round
cost reaches a terminal outcome within the bound. -/
theorem scheduler_terminates_w :
    Scheduler.isTerminal
      (Scheduler.schedulerIter schedCfg0 (fun _ _ => ((0, 0), (0, 0))) (fun _ _ => 0)
        (fun _ => 1) (Scheduler.termBound schedCfg0 1)) = true :=
  scheduler_terminates schedCfg0 (fun _ _ => ((0, 0), (0, 0))) (fun _ _ => 0)
    (fun _ => 1) 1 (by norm_num [schedCfg0]) (by norm_num) (fun _ => le_refl 1)

/-- C6: configuration validation fails fast — a parsed config JSON with
`sampleSize ≤ 1` or a negative `timeout` makes `parseConfigFile` return an
error, so no `Config` (and hence no run state) is ever produced. -/
theorem parseConfigFile_fails_fast (isUrl : String → Bool)
    (resolveLocal : String → String → Except String String) (c : ConfigFileJson)
    (h : (∃ n, c.sampleSize = some n ∧ n ≤ 1) ∨ (∃ t, c.timeout = some t ∧ t < 0)) :
    (parseConfigFile isUrl resolveLocal c).isOk = false := by
  rcases hse : schemaErrors c with _ | ⟨e, rest⟩
  · exfalso
    rcases h with ⟨n, hn, hle⟩ | ⟨t, ht, hlt⟩
    · simp [schemaErrors, hn, show n < 2 by omega] at hse
    · simp [schemaErrors, ht, hlt] at hse
  · simp only [parseConfigFile, hse]
    rfl

/-- Witness for C6 at the fixture config whose sample size is 1. -/
theorem parseConfigFile_fails_fast_w :
    (parseConfigFile isUrlAll resolveLocalId cfgJsonBadSample).isOk = false :=
  parseConfigFile_fails_fast isUrlAll resolveLocalId cfgJsonBadSample
    (Or.inl ⟨1, rfl, le_refl 1⟩)

/-- C3: whenever `parseConfigFile` succeeds on a config that supplies no
horizons, the resulting configuration's horizon set is exactly the parse of
the default horizon list `["0%"]`. -/
theorem parseConfigFile_default_horizons (isUrl : String → Bool)
    (resolveLocal : String → String → Except String String) (c : ConfigFileJson)
    (cfg : Config) (hok : parseConfigFile isUrl resolveLocal c = Except.ok cfg)
    (hh : c.horizons = none) :
    defaultHorizons = ["0%"] ∧ parseHorizons defaultHorizons = Except.ok cfg.horizons := by
  refine ⟨rfl, ?_⟩
  simp only [parseConfigFile] at hok
  split at hok
  · exact Except.noConfusion hok
  · split at hok
    · exact Except.noConfusion hok
    · split at hok
      · exact Except.noConfusion hok
      · rename_i hz hhz
        injection hok with hok
        subst hok
        rw [hh] at hhz
        exact hhz

/-- The fixture config (one remote benchmark, no horizons) parses
successfully to `cfgParsed0`. -/
theorem parseConfigFile_cfgJson0 :
    parseConfigFile isUrlAll resolveLocalId cfgJson0 = Except.ok cfgParsed0 := by
  have h2 : cfgJson0.benchmarks.flatMap applyExpansions = [remoteBench0] := by
    simp [cfgJson0, applyExpansions, remoteBench0]
  have h3 : parseBenchmarks isUrlAll resolveLocalId defaultRoot [remoteBench0]
      = Except.ok [⟨"http://example.com", BenchUrl.remote ("http://example.com"),
          "chrome", Measurement.fcp⟩] := rfl
  simp only [parseConfigFile, show schemaErrors cfgJson0 = [] from rfl,
    show cfgJson0.root = none from rfl, h2, h3,
    show cfgJson0.horizons = none from rfl, Option.getD_none, defaultHorizons,
    parseHorizons_default]
  rfl

/-- Witness for C3 at the fixture config with no horizons supplied. -/
theorem parseConfigFile_default_horizons_w :
    defaultHorizons = ["0%"]
    ∧ parseHorizons defaultHorizons = Except.ok cfgParsed0.horizons :=
  parseConfigFile_default_horizons isUrlAll resolveLocalId cfgJson0 cfgParsed0
    parseConfigFile_cfgJson0 rfl

/-- C5: for a one-result list the unfixed table of `automaticResultTable`
contains none of the absolute-slowdown, relative-slowdown or direction
columns (so no `"unsure"`/`"faster"`/`"slower"` cell can appear); for every
result list of length greater than one, all three columns are present. -/
theorem automaticResultTable_columns (results : List Format.ResultStats) :
    (results.length = 1 →
      ((Format.automaticResultTable results).unfixed.dimensions.all
        (fun d => !(d.label == "Slowdown [95% CI]" || d.label == "Relative [95% CI]"
          || d.label == "Direction"))) = true)
    ∧ (1 < results.length →
        Format.absoluteSlowdownDimension
            ∈ (Format.automaticResultTable results).unfixed.dimensions
        ∧ Format.relativeSlowdownDimension
            ∈ (Format.automaticResultTable results).unfixed.dimensions
        ∧ Format.directionDimension
            ∈ (Format.automaticResultTable results).unfixed.dimensions) := by
  constructor
  · intro h1
    rw [List.all_eq_true]
    intro d hd
    have hnot : ¬ 1 < results.length := by rw [h1]; omega
    simp only [Format.automaticResultTable, if_neg hnot, List.append_nil] at hd
    rcases List.mem_append.mp hd with hd' | hd'
    · have hpf := List.mem_of_mem_filter hd'
      simp only [Format.possiblyFixedDimensions, List.mem_cons, List.not_mem_nil,
        or_false] at hpf
      rcases hpf with rfl | rfl | rfl | rfl | rfl | rfl | rfl <;> decide
    · simp only [List.mem_cons, List.not_mem_nil, or_false] at hd'
      rcases hd' with rfl | rfl <;> decide
  · intro h2
    simp only [Format.automaticResultTable, if_pos h2]
    refine ⟨?_, ?_, ?_⟩ <;> exact List.mem_append.mpr (Or.inr (by simp))

/-- Witness for C5 at a one-row list and a two-row list of fixture rows. -/
theorem automaticResultTable_columns_w :
    ((Format.automaticResultTable [baselineRow]).unfixed.dimensions.all
      (fun d => !(d.label == "Slowdown [95% CI]" || d.label == "Relative [95% CI]"
        || d.label == "Direction"))) = true
    ∧ Format.directionDimension
        ∈ (Format.automaticResultTable [baselineRow, unsureRow]).unfixed.dimensions :=
  ⟨(automaticResultTable_columns [baselineRow]).1 rfl,
   ((automaticResultTable_columns [baselineRow, unsureRow]).2 (by norm_num)).2.2⟩

end Tachometer
